import Mathlib

/-!
Verification of the cosmological distance calculator (`cosmology.py`,
Hogg 1999 distance measures).  The class holds the density parameters
`OmegaK, OmegaM, OmegaL` and the derived constants `H0`, `DH`, and exposes
the distance functions `_Einv`, `DC`, `DM`, `DA`, `DL`, `mu`.  Machine
floats are modelled by real numbers; the definite integral computed by
`scipy.integrate.quad` is modelled by the interval integral; Python
exceptions are modelled by `Except`.
-/

namespace Cosmo

open MeasureTheory intervalIntegral

/-- Module-level constant: speed of light in km/s (`C = 299792.458`). -/
def C : ℝ := 299792.458

/-- Python exceptions the modelled code paths can raise.  The only failure
present in the source is a scalar float division by zero. -/
inductive PyError where
  | zeroDivisionError
deriving DecidableEq

/-- The attributes stored on a `Cosmology` instance by `__init__`:
`OmegaK`, `OmegaM`, `OmegaL`, `H0`, `DH`.  They are plain fields here so
that the branch structure of `DM` (which inspects the sign of `OmegaK`)
can be analysed; the constructor `Cosmology.init` below fixes them the
way `__init__` does. -/
structure Cosmology where
  OmegaK : ℝ
  OmegaM : ℝ
  OmegaL : ℝ
  H0 : ℝ
  DH : ℝ

/-- `Cosmology.__init__(OmegaM=0.3, h=0.7)`: sets `OmegaK = 0`,
`OmegaL = 1 - OmegaM`, `H0 = h * 100`, `DH = C / H0`. -/
noncomputable def Cosmology.init (OmegaM h : ℝ) : Cosmology :=
  { OmegaK := 0
    OmegaM := OmegaM
    OmegaL := 1 - OmegaM
    H0 := h * 100
    DH := C / (h * 100) }

/-- Construction as it actually runs in Python: the body of `__init__`
evaluates `C / (h * 100)`, and a scalar float division by zero raises
`ZeroDivisionError`; there is no parameter validation. -/
noncomputable def mkCosmology (OmegaM h : ℝ) : Except PyError Cosmology :=
  if h * 100 = 0 then Except.error PyError.zeroDivisionError
  else Except.ok (Cosmology.init OmegaM h)

/-- `_Einv(z) = 1 / sqrt(OmegaM*(1+z)**3 + OmegaK*(1+z)**2 + OmegaL)`
(the inverse of Hogg eqn 14). -/
noncomputable def Cosmology.Einv (c : Cosmology) (z : ℝ) : ℝ :=
  1 / Real.sqrt (c.OmegaM * (1 + z) ^ 3 + c.OmegaK * (1 + z) ^ 2 + c.OmegaL)

/-- `DC(z) = DH * integrate.quad(_Einv, 0, z)[0]` (Hogg eqn 15). -/
noncomputable def Cosmology.DC (c : Cosmology) (z : ℝ) : ℝ :=
  c.DH * ∫ t in (0:ℝ)..z, c.Einv t

/-- `DC` raises nothing: `quad` integrates over the finite interval from
`0` to `z` for any real `z` (also negative `z`) and returns a float; the
source performs no domain check on `z`. -/
noncomputable def Cosmology.DCe (c : Cosmology) (z : ℝ) : Except PyError ℝ :=
  Except.ok (c.DC z)

/-- `DM(z)` (Hogg eqn 16), branching on the sign of `OmegaK`:
`sinh` scaling for `OmegaK > 0`, `DC(z)` for `OmegaK == 0`, and
`sin` scaling with `abs(OmegaK)` for `OmegaK < 0`. -/
noncomputable def Cosmology.DM (c : Cosmology) (z : ℝ) : ℝ :=
  if 0 < c.OmegaK then
    c.DH / Real.sqrt c.OmegaK * Real.sinh (Real.sqrt c.OmegaK * c.DC z / c.DH)
  else if c.OmegaK = 0 then
    c.DC z
  else
    c.DH / Real.sqrt |c.OmegaK| * Real.sin (Real.sqrt |c.OmegaK| * c.DC z / c.DH)

/-- The `windemut` variant of `DM`: it applies `np.sinh` in the
`OmegaK < 0` branch as well (writing `abs(OmegaK)**(-0.5)`, which for
nonzero `OmegaK` equals `1 / sqrt |OmegaK|`). -/
noncomputable def Cosmology.DMw (c : Cosmology) (z : ℝ) : ℝ :=
  if 0 < c.OmegaK then
    c.DH * (Real.sqrt c.OmegaK)⁻¹ * Real.sinh (Real.sqrt c.OmegaK * c.DC z / c.DH)
  else if c.OmegaK = 0 then
    c.DC z
  else
    c.DH * (Real.sqrt |c.OmegaK|)⁻¹ * Real.sinh (Real.sqrt |c.OmegaK| * c.DC z / c.DH)

/-- `DA(z) = DM(z) / (1 + z)` (Hogg eqn 18), as a total real function. -/
noncomputable def Cosmology.DA (c : Cosmology) (z : ℝ) : ℝ :=
  c.DM z / (1 + z)

/-- `DA(z)` as it actually runs: the scalar float division
`DM(z) / (1 + z)` raises `ZeroDivisionError` when `1 + z == 0`. -/
noncomputable def Cosmology.DAe (c : Cosmology) (z : ℝ) : Except PyError ℝ :=
  if 1 + z = 0 then Except.error PyError.zeroDivisionError
  else Except.ok (c.DM z / (1 + z))

/-- `DL(z) = (1 + z) * DM(z)` (Hogg eqn 21). -/
noncomputable def Cosmology.DL (c : Cosmology) (z : ℝ) : ℝ :=
  (1 + z) * c.DM z

/-- The `sanderbeckp` variant of `DL`: `DL(z) = (1+z)**2 * DA(z)`. -/
noncomputable def Cosmology.DLsq (c : Cosmology) (z : ℝ) : ℝ :=
  (1 + z) ^ 2 * c.DA z

/-- `mu(z) = 5 * log10(DL(z) * 1e6 / 10)` (Hogg eqn 25). -/
noncomputable def Cosmology.mu (c : Cosmology) (z : ℝ) : ℝ :=
  5 * Real.logb 10 (c.DL z * 1000000 / 10)

/-- The `eschwiet` variant of `mu`: `5 * log10(DL(z) / 0.00001)`
(its comment: converted from pc to Mpc). -/
noncomputable def Cosmology.muE (c : Cosmology) (z : ℝ) : ℝ :=
  5 * Real.logb 10 (c.DL z / 0.00001)

/-! Basic facts about the integrand. -/

/-- The integrand is nonnegative everywhere (it is one over a square root). -/
lemma Einv_nonneg (c : Cosmology) (t : ℝ) : 0 ≤ c.Einv t := by
  unfold Cosmology.Einv
  exact div_nonneg zero_le_one (Real.sqrt_nonneg _)

/-- For a model built by `__init__` with `0 ≤ OmegaM ≤ 1`, the radicand of
the integrand is at least `1` for every `t ≥ 0`. -/
lemma init_radicand_ge_one (Om h t : ℝ) (hOm0 : 0 ≤ Om) (hOm1 : Om ≤ 1)
    (ht : 0 ≤ t) :
    1 ≤ (Cosmology.init Om h).OmegaM * (1 + t) ^ 3 +
      (Cosmology.init Om h).OmegaK * (1 + t) ^ 2 + (Cosmology.init Om h).OmegaL := by
  show 1 ≤ Om * (1 + t) ^ 3 + 0 * (1 + t) ^ 2 + (1 - Om)
  nlinarith [sq_nonneg t, sq_nonneg (1 + t), mul_nonneg hOm0 ht]

/-- If the radicand is bounded below by `1` on `[0, b]`, the integrand is
continuous there. -/
lemma Einv_continuousOn (c : Cosmology) {b : ℝ}
    (hlb : ∀ t ∈ Set.Icc (0:ℝ) b,
      1 ≤ c.OmegaM * (1 + t) ^ 3 + c.OmegaK * (1 + t) ^ 2 + c.OmegaL) :
    ContinuousOn c.Einv (Set.Icc 0 b) := by
  unfold Cosmology.Einv
  apply ContinuousOn.div continuousOn_const
  · exact (Real.continuous_sqrt.comp (by continuity)).continuousOn
  · intro t ht
    have h1 : (1:ℝ) ≤ c.OmegaM * (1 + t) ^ 3 + c.OmegaK * (1 + t) ^ 2 + c.OmegaL :=
      hlb t ht
    have : (0:ℝ) < Real.sqrt (c.OmegaM * (1 + t) ^ 3 + c.OmegaK * (1 + t) ^ 2 + c.OmegaL) :=
      Real.sqrt_pos.mpr (lt_of_lt_of_le one_pos h1)
    exact ne_of_gt this

/-- If the radicand is bounded below by `1` on `[0, b]`, the integrand is
strictly positive there. -/
lemma Einv_pos_on (c : Cosmology) {b : ℝ}
    (hlb : ∀ t ∈ Set.Icc (0:ℝ) b,
      1 ≤ c.OmegaM * (1 + t) ^ 3 + c.OmegaK * (1 + t) ^ 2 + c.OmegaL) :
    ∀ t ∈ Set.Icc (0:ℝ) b, 0 < c.Einv t := by
  intro t ht
  unfold Cosmology.Einv
  apply div_pos one_pos
  exact Real.sqrt_pos.mpr (lt_of_lt_of_le one_pos (hlb t ht))

/-! Claim theorems. -/

/-- C10: for a model built by `__init__`, regardless of the `OmegaM` and `h`
supplied, the integrand `_Einv` evaluated at `z = 0` equals exactly `1`,
because the constructor fixes `OmegaK = 0` and `OmegaL = 1 - OmegaM`, so
the density parameters sum to `1`. -/
theorem init_Einv_at_zero_eq_one (Om h : ℝ) :
    (Cosmology.init Om h).Einv 0 = 1 := by
  unfold Cosmology.Einv Cosmology.init
  have h1 : Om * (1 + (0:ℝ)) ^ 3 + 0 * (1 + (0:ℝ)) ^ 2 + (1 - Om) = 1 := by ring
  rw [h1, Real.sqrt_one, div_one]

/-- C1: for every model built by `__init__` (any `OmegaM`, any `h > 0`) and
every redshift `z ≥ 0`, `DM(z)` returns exactly the same value as `DC(z)`:
the constructor fixes `OmegaK = 0`, so the flat branch of `DM` applies. -/
theorem init_DM_eq_DC (Om h z : ℝ) (hh : 0 < h) (hz : 0 ≤ z) :
    (Cosmology.init Om h).DM z = (Cosmology.init Om h).DC z := by
  unfold Cosmology.DM
  rw [if_neg, if_pos]
  · rfl
  · exact lt_irrefl 0

/-- Witness for C1 at `OmegaM = 0.3`, `h = 0.7`, `z = 1`. -/
theorem init_DM_eq_DC_witness :
    (Cosmology.init 0.3 0.7).DM 1 = (Cosmology.init 0.3 0.7).DC 1 :=
  init_DM_eq_DC 0.3 0.7 1 (by norm_num) (by norm_num)

/-- C4: for every model built by `__init__` with valid parameters
(any `OmegaM`, any `h > 0`), `DC(0)` returns exactly `0`: the integral
from `0` to `0` vanishes. -/
theorem init_DC_at_zero (Om h : ℝ) (hh : 0 < h) :
    (Cosmology.init Om h).DC 0 = 0 := by
  unfold Cosmology.DC
  rw [intervalIntegral.integral_same, mul_zero]

/-- Witness for C4 at `OmegaM = 0.3`, `h = 0.7`. -/
theorem init_DC_at_zero_witness : (Cosmology.init 0.3 0.7).DC 0 = 0 :=
  init_DC_at_zero 0.3 0.7 (by norm_num)

/-- C2: for every model and every `z ≥ 0`, `DL(z)` computed as
`(1+z) * DM(z)` equals `(1+z)^2 * DA(z)` within `1e-6` relative
tolerance (in fact exactly, since `DA(z) = DM(z)/(1+z)` and `1+z > 0`). -/
theorem DL_close_to_sq_DA (c : Cosmology) (z : ℝ) (hz : 0 ≤ z) :
    |c.DL z - (1 + z) ^ 2 * c.DA z| ≤ 1e-6 * |c.DL z| := by
  have hz1 : (1 : ℝ) + z ≠ 0 := by positivity
  have heq : (1 + z) ^ 2 * c.DA z = c.DL z := by
    unfold Cosmology.DA Cosmology.DL
    field_simp
    ring
  rw [heq, sub_self, abs_zero]
  positivity

/-- Witness for C2 at `OmegaM = 0.3`, `h = 0.7`, `z = 1`. -/
theorem DL_close_to_sq_DA_witness :
    |(Cosmology.init 0.3 0.7).DL 1 -
      (1 + 1) ^ 2 * (Cosmology.init 0.3 0.7).DA 1| ≤
      1e-6 * |(Cosmology.init 0.3 0.7).DL 1| :=
  DL_close_to_sq_DA (Cosmology.init 0.3 0.7) 1 (by norm_num)

/-- C3: for every model and every `z` with `DL(z) > 0`, the distance
modulus equals `5 * log10(DL(z) * 10^6 / 10)` exactly — as a definitional
identity for the canonical `mu`, and by exact algebra
(`DL / 0.00001 = DL * 10^6 / 10`) for the `eschwiet` variant `muE`. -/
theorem mu_eq_five_log10_DL (c : Cosmology) (z : ℝ) (hDL : 0 < c.DL z) :
    c.mu z = 5 * Real.logb 10 (c.DL z * 10 ^ 6 / 10) ∧
      c.muE z = 5 * Real.logb 10 (c.DL z * 10 ^ 6 / 10) := by
  constructor
  · unfold Cosmology.mu
    norm_num
  · unfold Cosmology.muE
    have h1 : c.DL z / 0.00001 = c.DL z * 10 ^ 6 / 10 := by
      norm_num
      ring
    rw [h1]

/-- A concrete model with strictly positive luminosity distance:
`OmegaM = 0`, `h = 0.7`, `z = 1` (there the integrand is constantly `1`,
so `DC(1) = DH`, and `DL(1) = 2 * DH > 0`). -/
lemma init_zero_DL_one_pos : 0 < (Cosmology.init 0 0.7).DL 1 := by
  have hEinv : (Cosmology.init 0 0.7).Einv = fun _ => 1 := by
    funext t
    unfold Cosmology.Einv Cosmology.init
    have h1 : (0:ℝ) * (1 + t) ^ 3 + 0 * (1 + t) ^ 2 + (1 - 0) = 1 := by ring
    rw [h1, Real.sqrt_one, div_one]
  have hDC : (Cosmology.init 0 0.7).DC 1 = (Cosmology.init 0 0.7).DH := by
    unfold Cosmology.DC
    rw [hEinv]
    simp
  have hDH : (0:ℝ) < (Cosmology.init 0 0.7).DH := by
    unfold Cosmology.init C
    norm_num
  have hK : (Cosmology.init 0 0.7).OmegaK = 0 := rfl
  unfold Cosmology.DL Cosmology.DM
  rw [hK, if_neg (lt_irrefl 0), if_pos rfl, hDC]
  linarith

/-- Witness for C3 at the model `OmegaM = 0`, `h = 0.7` and `z = 1`. -/
theorem mu_eq_five_log10_DL_witness :
    (Cosmology.init 0 0.7).mu 1 =
        5 * Real.logb 10 ((Cosmology.init 0 0.7).DL 1 * 10 ^ 6 / 10) ∧
      (Cosmology.init 0 0.7).muE 1 =
        5 * Real.logb 10 ((Cosmology.init 0 0.7).DL 1 * 10 ^ 6 / 10) :=
  mu_eq_five_log10_DL (Cosmology.init 0 0.7) 1 init_zero_DL_one_pos

/-- C8: for every model, `DA` applied at `z = -1` fails (the scalar float
division `DM(z)/(1+z)` divides by zero) instead of returning a value;
this failure is what the specification's error taxonomy calls
`DomainError` and Python raises as `ZeroDivisionError`. -/
theorem DAe_at_neg_one_fails (c : Cosmology) :
    c.DAe (-1) = Except.error PyError.zeroDivisionError := by
  unfold Cosmology.DAe
  rw [if_pos]
  norm_num

/-- C5: for every model built by `__init__` with `0 ≤ OmegaM ≤ 1` (and a
valid `h > 0`) and every pair of redshifts `0 ≤ z1 < z2`, we have
`DC(z1) ≤ DC(z2)`: the comoving distance is monotonically non-decreasing. -/
theorem init_DC_monotone (Om h z1 z2 : ℝ) (hOm0 : 0 ≤ Om) (hOm1 : Om ≤ 1)
    (hh : 0 < h) (hz1 : 0 ≤ z1) (h12 : z1 < z2) :
    (Cosmology.init Om h).DC z1 ≤ (Cosmology.init Om h).DC z2 := by
  set c := Cosmology.init Om h with hc
  have hz2 : (0:ℝ) ≤ z2 := le_trans hz1 h12.le
  have hlb : ∀ t ∈ Set.Icc (0:ℝ) z2,
      1 ≤ c.OmegaM * (1 + t) ^ 3 + c.OmegaK * (1 + t) ^ 2 + c.OmegaL :=
    fun t ht => init_radicand_ge_one Om h t hOm0 hOm1 ht.1
  have hint : IntervalIntegrable c.Einv MeasureTheory.volume 0 z2 :=
    (Einv_continuousOn c hlb).intervalIntegrable_of_Icc hz2
  have hmono : (∫ t in (0:ℝ)..z1, c.Einv t) ≤ ∫ t in (0:ℝ)..z2, c.Einv t := by
    apply intervalIntegral.integral_mono_interval le_rfl hz1 h12.le
    · exact Filter.Eventually.of_forall fun t => Einv_nonneg c t
    · exact hint
  have hDH : 0 ≤ c.DH := by
    rw [hc]
    show (0:ℝ) ≤ C / (h * 100)
    apply le_of_lt
    apply div_pos
    · unfold C
      norm_num
    · linarith
  unfold Cosmology.DC
  exact mul_le_mul_of_nonneg_left hmono hDH

/-- Witness for C5 at `OmegaM = 0.3`, `h = 0.7`, `z1 = 0`, `z2 = 1`. -/
theorem init_DC_monotone_witness :
    (Cosmology.init 0.3 0.7).DC 0 ≤ (Cosmology.init 0.3 0.7).DC 1 :=
  init_DC_monotone 0.3 0.7 0 1 (by norm_num) (by norm_num) (by norm_num)
    (by norm_num) (by norm_num)

/-- C7 counterexample: at the concrete model `OmegaM = 0.3`, `h = 0.7` and
the negative redshift `z = -1/2`, `DC` returns a numeric value — it does
not fail with any error: the source performs no domain check on `z`. -/
theorem DCe_at_neg_half_no_error :
    (Cosmology.init 0.3 0.7).DCe (-(1/2)) =
        Except.ok ((Cosmology.init 0.3 0.7).DC (-(1/2))) ∧
      (Cosmology.init 0.3 0.7).DCe (-(1/2)) ≠
        Except.error PyError.zeroDivisionError :=
  ⟨rfl, fun h => Except.noConfusion h⟩

/-- C7 amended: for every model built by `__init__` with `h > 0` and every
`z` with `-1 < z < 0`, `DC(z)` does not fail; it returns the numeric value
`DH * ∫ from 0 to z of _Einv`, which is at most `0`. -/
theorem init_DCe_neg_z_returns (Om h z : ℝ) (hh : 0 < h) (hz1 : -1 < z)
    (hz0 : z < 0) :
    (Cosmology.init Om h).DCe z = Except.ok ((Cosmology.init Om h).DC z) ∧
      (Cosmology.init Om h).DC z ≤ 0 := by
  refine ⟨rfl, ?_⟩
  set c := Cosmology.init Om h with hc
  have hDH : 0 ≤ c.DH := by
    rw [hc]
    show (0:ℝ) ≤ C / (h * 100)
    apply le_of_lt
    apply div_pos
    · unfold C
      norm_num
    · linarith
  have hflip : (∫ t in (0:ℝ)..z, c.Einv t) = -∫ t in z..(0:ℝ), c.Einv t :=
    intervalIntegral.integral_symm z 0
  have h0 : 0 ≤ ∫ t in z..(0:ℝ), c.Einv t :=
    intervalIntegral.integral_nonneg hz0.le fun u _ => Einv_nonneg c u
  have hI : (∫ t in (0:ℝ)..z, c.Einv t) ≤ 0 := by
    rw [hflip]
    linarith
  unfold Cosmology.DC
  nlinarith

/-- Witness for the amended C7 at `OmegaM = 0.3`, `h = 0.7`, `z = -1/2`. -/
theorem init_DCe_neg_z_returns_witness :
    (Cosmology.init 0.3 0.7).DCe (-(1/2)) =
        Except.ok ((Cosmology.init 0.3 0.7).DC (-(1/2))) ∧
      (Cosmology.init 0.3 0.7).DC (-(1/2)) ≤ 0 :=
  init_DCe_neg_z_returns 0.3 0.7 (-(1/2)) (by norm_num) (by norm_num)
    (by norm_num)

/-- C6 counterexample: construction with the negative `h = -0.7 ≤ 0`
succeeds and yields a model, instead of raising any error. -/
theorem mkCosmology_neg_h_no_error :
    mkCosmology 0.3 (-0.7) = Except.ok (Cosmology.init 0.3 (-0.7)) := by
  unfold mkCosmology
  rw [if_neg]
  norm_num

/-- C6 amended: `__init__` performs no parameter validation.  With
`h < 0` construction succeeds and produces a model whose (finite)
`hubbleDistance` is negative; with `h = 0` construction fails with
Python's `ZeroDivisionError` (from `C / H0`), not with an
`InvalidParameterError`. -/
theorem mkCosmology_no_validation (Om h : ℝ) (hh : h < 0) :
    mkCosmology Om h = Except.ok (Cosmology.init Om h) ∧
      (Cosmology.init Om h).DH < 0 ∧
      mkCosmology Om 0 = Except.error PyError.zeroDivisionError := by
  refine ⟨?_, ?_, ?_⟩
  · have hne : h * 100 < 0 := by linarith
    unfold mkCosmology
    rw [if_neg (ne_of_lt hne)]
  · show C / (h * 100) < 0
    apply div_neg_of_pos_of_neg
    · unfold C
      norm_num
    · linarith
  · unfold mkCosmology
    rw [if_pos]
    norm_num

/-- Witness for the amended C6 at `OmegaM = 0.3`, `h = -0.7`. -/
theorem mkCosmology_no_validation_witness :
    mkCosmology 0.3 (-0.7) = Except.ok (Cosmology.init 0.3 (-0.7)) ∧
      (Cosmology.init 0.3 (-0.7)).DH < 0 ∧
      mkCosmology 0.3 0 = Except.error PyError.zeroDivisionError :=
  mkCosmology_no_validation 0.3 (-0.7) (by norm_num)

/-- A record with negative curvature `OmegaK = -1` (`OmegaM = OmegaL = 1`,
`H0 = DH = 1`), exercising the `OmegaK < 0` branch of `DM`. -/
noncomputable def cNeg : Cosmology := ⟨-1, 1, 1, 1, 1⟩

/-- For `cNeg` the radicand of the integrand is at least `1` on `t ≥ 0`. -/
lemma cNeg_radicand (t : ℝ) (ht : 0 ≤ t) :
    1 ≤ cNeg.OmegaM * (1 + t) ^ 3 + cNeg.OmegaK * (1 + t) ^ 2 + cNeg.OmegaL := by
  show 1 ≤ 1 * (1 + t) ^ 3 + (-1) * (1 + t) ^ 2 + 1
  nlinarith [mul_nonneg (sq_nonneg (1 + t)) ht]

/-- The integral of `cNeg`'s integrand over `[0, 1]` is strictly positive. -/
lemma cNeg_integral_pos : 0 < ∫ t in (0:ℝ)..1, cNeg.Einv t := by
  apply intervalIntegral.intervalIntegral_pos_of_pos_on
  · exact (Einv_continuousOn cNeg fun t ht =>
      cNeg_radicand t ht.1).intervalIntegrable_of_Icc (by norm_num)
  · intro x hx
    exact Einv_pos_on cNeg (fun t ht => cNeg_radicand t ht.1) x ⟨hx.1.le, hx.2.le⟩
  · norm_num

/-- C9 counterexample: in the `windemut` variant of `DM`, at the model
`cNeg` with `OmegaK = -1 < 0` and `z = 1`, the result is NOT
`DH/sqrt|OmegaK| * sin(sqrt|OmegaK| * DC(z)/DH)`: that variant applies
`sinh` in the negative-curvature branch, and `sinh x > sin x` at the
positive argument `x = DC(1)/DH`. -/
theorem DMw_neg_curvature_not_sin :
    Cosmology.DMw cNeg 1 ≠
      cNeg.DH / Real.sqrt |cNeg.OmegaK| *
        Real.sin (Real.sqrt |cNeg.OmegaK| * Cosmology.DC cNeg 1 / cNeg.DH) := by
  have hK : cNeg.OmegaK = -1 := rfl
  have hDH : cNeg.DH = 1 := rfl
  have habs : |(-1:ℝ)| = 1 := by norm_num
  have hI : 0 < ∫ t in (0:ℝ)..1, cNeg.Einv t := cNeg_integral_pos
  have hDC : Cosmology.DC cNeg 1 = ∫ t in (0:ℝ)..1, cNeg.Einv t := by
    unfold Cosmology.DC
    rw [hDH, one_mul]
  unfold Cosmology.DMw
  rw [hK, hDH, hDC, habs, Real.sqrt_one]
  rw [if_neg (by norm_num : ¬(0:ℝ) < -1), if_neg (by norm_num : ¬(-1:ℝ) = 0)]
  have hsin : Real.sin (∫ t in (0:ℝ)..1, cNeg.Einv t) <
      Real.sinh (∫ t in (0:ℝ)..1, cNeg.Einv t) :=
    lt_trans (Real.sin_lt hI) (Real.self_lt_sinh_iff.mpr hI)
  simpa using ne_of_gt hsin

/-- C9 amended: in the canonical (`deitrr`) `DM`, whenever the model's
`OmegaK` is `< 0`, the result is
`DH/sqrt|OmegaK| * sin(sqrt|OmegaK| * DC(z)/DH)`, with the trigonometric
`sin` and the absolute value of `OmegaK`; the `windemut` variant instead
applies `sinh` in this branch, so the two variants disagree there. -/
theorem DM_neg_curvature_sin (c : Cosmology) (z : ℝ) (hK : c.OmegaK < 0) :
    c.DM z = c.DH / Real.sqrt |c.OmegaK| *
      Real.sin (Real.sqrt |c.OmegaK| * c.DC z / c.DH) := by
  unfold Cosmology.DM
  rw [if_neg (not_lt.mpr hK.le), if_neg (ne_of_lt hK)]

/-- Witness for the amended C9 at the model `cNeg` and `z = 1`. -/
theorem DM_neg_curvature_sin_witness :
    Cosmology.DM cNeg 1 = cNeg.DH / Real.sqrt |cNeg.OmegaK| *
      Real.sin (Real.sqrt |cNeg.OmegaK| * Cosmology.DC cNeg 1 / cNeg.DH) :=
  DM_neg_curvature_sin cNeg 1 (by show (-1:ℝ) < 0; norm_num)

end Cosmo
